import Mathlib

/-!
Verification of the calendar synchronization and token-refresh subsystem of
the gaffer-app backend (apps/api/app/services: calendar_sync_service.py,
google_token_service.py, cache_service.py, and the calendar_events model).

The services are shallowly embedded: timestamps are integers (seconds),
database tables are lists of rows, the outbound HTTP endpoints are oracles
passed in as explicit response values, and Python exceptions become values
of an error type threaded through Except.  Module-level process state (the
access-token cache, the cache-service fallback flag) is passed explicitly.
-/

/-- Timestamps (timezone-aware datetimes in the source) are modelled as
integer seconds since an arbitrary epoch; only their ordering matters. -/
abbrev Time := Int

deriving instance DecidableEq for Except

/-! ## Cache service (cache_service.py)

CacheService holds a primary and a fallback backend plus the boolean
field using_fallback (initially false).  Every get/set/delete first calls
the private backend-selection step, which pings the primary only while
using_fallback is still false.  Which concrete backend a call routes to is
what matters here, so backends are modelled by a two-value kind. -/

inductive CacheBackendKind
  | primary
  | fallback
deriving DecidableEq, Repr

/-- The mutable state of CacheService: the using_fallback flag
(self._using_fallback, set in CacheService.__init__ to False). -/
structure CacheServiceState where
  using_fallback : Bool
deriving DecidableEq, Repr

/-- CacheService._get_backend (cache_service.py lines 138-148).
ping_primary is the value that self._primary.ping() would return at this
moment; it is consulted only when using_fallback is still false.  Returns
the backend the operation routes to and the state after the call. -/
def CacheService.get_backend (ping_primary : Bool) (s : CacheServiceState) :
    CacheBackendKind × CacheServiceState :=
  if s.using_fallback then
    (CacheBackendKind.fallback, s)
  else if ping_primary then
    (CacheBackendKind.primary, s)
  else
    (CacheBackendKind.fallback, { using_fallback := true })

/-- A sequence of cache operations (get/set/delete all route identically,
through CacheService._get_backend); the list holds, per operation, the
value the primary backend's health check would return at that moment.
Returns the backend each operation actually routed to. -/
def CacheService.run_backends : List Bool → CacheServiceState → List CacheBackendKind
  | [], _ => []
  | p :: ps, s =>
    let (b, s1) := CacheService.get_backend p s
    b :: CacheService.run_backends ps s1

/-! ## Fernet encryption (external library used by google_token_service.py)

Modelled from the spec: the Fernet symmetric authenticated encryption used
by GoogleTokenService is an external library (cryptography.fernet), not
part of this repository.  Per the spec (section 4.2), it encrypts under a
process-wide key with a fresh random nonce per call, and decryption under
a different key fails (InvalidToken).  The nonce is made an explicit
argument; a ciphertext records the key, the nonce and the plaintext, and
decryption succeeds exactly under the encrypting key. -/
structure FernetToken where
  key_id : Nat
  nonce : Nat
  plaintext : String
deriving DecidableEq, Repr

/-- Modelled from the spec: Fernet(key).encrypt of the external
cryptography library, with the per-call random nonce explicit. -/
def fernetEncrypt (key_id nonce : Nat) (plain : String) : FernetToken :=
  { key_id := key_id, nonce := nonce, plaintext := plain }

/-- Modelled from the spec: Fernet(key).decrypt of the external
cryptography library; fails (InvalidToken) under any other key. -/
def fernetDecrypt (key_id : Nat) (tok : FernetToken) : Option String :=
  if tok.key_id = key_id then some tok.plaintext else none

/-! ## Error taxonomy

google_token_service.py defines GoogleTokenError with subclasses
NoRefreshTokenError and TokenRefreshError; calendar_sync_service.py
defines the unrelated CalendarSyncError.  All four become constructors of
one error type (the base GoogleTokenError is raised directly only for
decryption/storage failures). -/
inductive SyncError
  | noRefreshTokenError (msg : String)
  | tokenRefreshError (msg : String)
  | googleTokenError (msg : String)
  | calendarSyncError (msg : String)
deriving DecidableEq, Repr

/-- GoogleTokenService._encrypt_token (google_token_service.py lines 57-59). -/
def GoogleTokenService.encrypt_token (key_id nonce : Nat) (token : String) : FernetToken :=
  fernetEncrypt key_id nonce token

/-- GoogleTokenService._decrypt_token (google_token_service.py lines 61-67):
on InvalidToken it raises the base GoogleTokenError. -/
def GoogleTokenService.decrypt_token (key_id : Nat) (tok : FernetToken) :
    Except SyncError String :=
  match fernetDecrypt key_id tok with
  | some s => Except.ok s
  | none => Except.error (SyncError.googleTokenError "Token decryption failed")

/-! ## Relational data model (apps/api/app/models)

Tables are lists of rows.  CalendarEvent rows carry a generated internal
id, modelled by a counter next_event_id in the database value. -/

/-- CalendarEvent (models/calendar_event.py).  The importance-scoring
columns are never touched by the sync service and are omitted. -/
structure EventRow where
  id : Nat
  user_id : String
  google_event_id : String
  title : String
  description : Option String
  start_time : Time
  end_time : Time
  location : Option String
  attendees_count : Option Nat
  etag : Option String
  synced_at : Time
  is_deleted : Bool
deriving DecidableEq, Repr

/-- CalendarSyncState (models/calendar_sync_state.py): one row per user. -/
structure SyncStateRow where
  user_id : String
  last_sync : Option Time
  updated_at : Option Time
deriving DecidableEq, Repr

/-- HypeRecord (models/hype_record.py), read-only for this subsystem. -/
structure HypeRow where
  user_id : String
  google_event_id : Option String
  status : String
  created_at : Time
  hype_text : Option String
  audio_url : Option String
  manager_style : Option String
deriving DecidableEq, Repr

/-- UserGoogleToken (models/user_google_token.py): the encrypted refresh
token for a user. -/
structure UserGoogleTokenRow where
  user_id : String
  refresh_token : FernetToken
  updated_at : Time
deriving DecidableEq, Repr

/-- The relational database.  next_event_id models gen_random_uuid() for
calendar_events.id as a fresh-id counter. -/
structure DB where
  calendar_events : List EventRow
  next_event_id : Nat
  sync_states : List SyncStateRow
  hype_records : List HypeRow
  user_google_tokens : List UserGoogleTokenRow
deriving DecidableEq, Repr

/-! ## Access-token cache (module-level _access_token_cache)

A Python dict user_id -> (token, expires_at), modelled as an association
list with at most the dict's semantics: lookup finds the unique entry,
insertion replaces any existing entry for the key. -/

abbrev AccessTokenCache := List (String × String × Time)

/-- Dict lookup: _access_token_cache[user_id], none when absent. -/
def cacheLookup (c : AccessTokenCache) (u : String) : Option (String × Time) :=
  match c.find? (fun e => e.1 == u) with
  | some e => some e.2
  | none => none

/-- Dict assignment: _access_token_cache[user_id] = (token, expires_at). -/
def cacheInsert (c : AccessTokenCache) (u : String) (v : String × Time) : AccessTokenCache :=
  c.filter (fun e => e.1 != u) ++ [(u, v)]

/-! ## GoogleTokenService (google_token_service.py) -/

/-- ACCESS_TOKEN_CACHE_TTL = timedelta(minutes=50). -/
def ACCESS_TOKEN_CACHE_TTL : Time := 50 * 60

/-- GoogleTokenService.store_refresh_token (lines 69-94): encrypt, then
upsert the UserGoogleToken row on user_id conflict. -/
def GoogleTokenService.store_refresh_token (key_id nonce : Nat) (db : DB)
    (user_id refresh_token : String) (now : Time) : DB :=
  let enc := GoogleTokenService.encrypt_token key_id nonce refresh_token
  if db.user_google_tokens.any (fun r => r.user_id == user_id) then
    { db with user_google_tokens := db.user_google_tokens.map (fun r =>
        if r.user_id == user_id then { r with refresh_token := enc, updated_at := now } else r) }
  else
    { db with user_google_tokens :=
        db.user_google_tokens ++ [{ user_id := user_id, refresh_token := enc, updated_at := now }] }

/-- GoogleTokenService.get_refresh_token (lines 96-110): select the row,
raise NoRefreshTokenError when absent, else decrypt. -/
def GoogleTokenService.get_refresh_token (key_id : Nat) (db : DB) (user_id : String) :
    Except SyncError String :=
  match db.user_google_tokens.find? (fun r => r.user_id == user_id) with
  | none => Except.error (SyncError.noRefreshTokenError "No refresh token found for user")
  | some row => GoogleTokenService.decrypt_token key_id row.refresh_token

/-- The OAuth token endpoint's response to one refresh-token exchange
(the POST in _exchange_refresh_token).  For a 200 response access_token
carries the new bearer token and new_refresh_token the optional rotated
refresh token; for error responses error_code / error_description model
the JSON error body. -/
structure TokenEndpointResponse where
  status_code : Nat
  access_token : String
  new_refresh_token : Option String
  error_code : Option String
  error_description : Option String
deriving DecidableEq, Repr

/-- GoogleTokenService._exchange_refresh_token (lines 112-146), with the
provider's response passed in as an oracle value. -/
def GoogleTokenService.exchange_refresh_token (resp : TokenEndpointResponse) :
    Except SyncError (String × Option String) :=
  if resp.status_code ≠ 200 then
    let error_msg := (resp.error_description.orElse (fun _ => resp.error_code)).getD "Unknown error"
    if resp.error_code = some "invalid_grant" then
      Except.error (SyncError.noRefreshTokenError "Refresh token has been revoked")
    else
      Except.error (SyncError.tokenRefreshError ("Failed to refresh token: " ++ error_msg))
  else
    Except.ok (resp.access_token, resp.new_refresh_token)

/-- The observable side effects get_access_token can perform, in order:
the DB read of the refresh token, the outbound HTTP exchange, and the DB
write of a rotated refresh token. -/
inductive TokenAction
  | db_read_refresh_token
  | http_token_exchange
  | db_store_refresh_token
deriving DecidableEq, Repr

/-- GoogleTokenService.get_access_token (lines 148-181).  exchange is the
response the token endpoint would give were the exchange performed, and
nonce the fresh nonce a rotated-token store would use.  Returns the
outcome together with the DB, the access-token cache after the call
(unchanged on every error path, as a Python exception leaves the module
state as it was), and the list of side effects actually performed. -/
def GoogleTokenService.get_access_token (key_id nonce : Nat) (now : Time)
    (exchange : TokenEndpointResponse) (db : DB) (cache : AccessTokenCache)
    (user_id : String) :
    Except SyncError String × DB × AccessTokenCache × List TokenAction :=
  let hit : Option String :=
    match cacheLookup cache user_id with
    | some (token, expires_at) => if now < expires_at then some token else none
    | none => none
  match hit with
  | some token => (Except.ok token, db, cache, [])
  | none =>
    match GoogleTokenService.get_refresh_token key_id db user_id with
    | Except.error e => (Except.error e, db, cache, [TokenAction.db_read_refresh_token])
    | Except.ok refresh_token =>
      match GoogleTokenService.exchange_refresh_token exchange with
      | Except.error e =>
        (Except.error e, db, cache,
          [TokenAction.db_read_refresh_token, TokenAction.http_token_exchange])
      | Except.ok (access_token, new_refresh_token) =>
        let expires_at := now + ACCESS_TOKEN_CACHE_TTL
        let cache1 := cacheInsert cache user_id (access_token, expires_at)
        match new_refresh_token with
        | some r =>
          if r ≠ refresh_token then
            (Except.ok access_token,
              GoogleTokenService.store_refresh_token key_id nonce db user_id r now,
              cache1,
              [TokenAction.db_read_refresh_token, TokenAction.http_token_exchange,
                TokenAction.db_store_refresh_token])
          else
            (Except.ok access_token, db, cache1,
              [TokenAction.db_read_refresh_token, TokenAction.http_token_exchange])
        | none =>
          (Except.ok access_token, db, cache1,
            [TokenAction.db_read_refresh_token, TokenAction.http_token_exchange])

/-- GoogleTokenService.has_refresh_token (lines 199-205): true on success,
false exactly on NoRefreshTokenError; every other error propagates. -/
def GoogleTokenService.has_refresh_token (key_id : Nat) (db : DB) (user_id : String) :
    Except SyncError Bool :=
  match GoogleTokenService.get_refresh_token key_id db user_id with
  | Except.ok _ => Except.ok true
  | Except.error (SyncError.noRefreshTokenError _) => Except.ok false
  | Except.error e => Except.error e

/-! ## CalendarSyncService (calendar_sync_service.py) -/

/-- SyncResult (calendar_sync_service.py lines 44-51). -/
structure SyncResult where
  events_added : Nat
  events_updated : Nat
  events_deleted : Nat
  is_full_sync : Bool
deriving DecidableEq, Repr

/-- LatestHypeData (lines 54-60). -/
structure LatestHypeData where
  hype_text : Option String
  audio_url : Option String
  manager_style : String
deriving DecidableEq, Repr

/-- CachedEvent (lines 63-79), the dataclass get_cached_events returns. -/
structure CachedEvent where
  id : Nat
  user_id : String
  google_event_id : String
  title : String
  description : Option String
  start_time : Time
  end_time : Time
  location : Option String
  attendees_count : Option Nat
  etag : Option String
  synced_at : Time
  is_deleted : Bool
  latest_hype : Option LatestHypeData
deriving DecidableEq, Repr

/-- One item of the Google events API response, with the fields
_store_events reads.  start_dateTime / end_dateTime model the nested
start.dateTime / end.dateTime values after datetime.fromisoformat:
none means the dateTime key is absent (an all-day event), some none means
the string is present but unparseable (ValueError), some (some t) the
parsed instant. -/
structure GEvent where
  id : Option String
  status : Option String
  summary : Option String
  description : Option String
  location : Option String
  attendees : Option (List String)
  etag : Option String
  start_dateTime : Option (Option Time)
  end_dateTime : Option (Option Time)
deriving DecidableEq, Repr

/-- One response of GET calendars/primary/events for one page request;
error_message models the error.message field of a non-200 JSON body. -/
structure EventsPageResponse where
  status_code : Nat
  items : List GEvent
  nextPageToken : Option String
  error_message : String
deriving DecidableEq, Repr

/-- The pagination loop of _fetch_events_from_google (lines 160-200):
responses are the provider's successive answers, one per page request
(the model assumes the provider answers every request, so the list is
never exhausted on a followed nextPageToken; running out is reported as a
provider error).  401 raises TokenRefreshError, any other non-200 raises
CalendarSyncError with the body's message, 200 appends the items and
continues while a nextPageToken is present. -/
def CalendarSyncService.fetch_pages :
    List EventsPageResponse → List GEvent → Except SyncError (List GEvent)
  | [], _ => Except.error (SyncError.calendarSyncError "Failed to fetch events: no response")
  | resp :: rest, acc =>
    if resp.status_code = 401 then
      Except.error (SyncError.tokenRefreshError "Access token invalid")
    else if resp.status_code ≠ 200 then
      Except.error (SyncError.calendarSyncError ("Failed to fetch events: " ++ resp.error_message))
    else
      let acc1 := acc ++ resp.items
      match resp.nextPageToken with
      | none => Except.ok acc1
      | some _ => CalendarSyncService.fetch_pages rest acc1

/-- CalendarSyncService._fetch_events_from_google (lines 133-208):
get an access token, then page through the events API; afterwards report
whether any item is cancelled.  updated_min only changes the query
parameters (updatedMin, showDeleted) sent to the provider, which the
pages oracle already reflects.  Returns the outcome plus the DB and the
access-token cache after the call. -/
def CalendarSyncService.fetch_events_from_google (key_id nonce : Nat) (now : Time)
    (exchange : TokenEndpointResponse) (pages : List EventsPageResponse)
    (db : DB) (cache : AccessTokenCache) (user_id : String)
    (_updated_min : Option Time) :
    Except SyncError (List GEvent × Bool) × DB × AccessTokenCache :=
  match GoogleTokenService.get_access_token key_id nonce now exchange db cache user_id with
  | (Except.error e, db1, cache1, _) => (Except.error e, db1, cache1)
  | (Except.ok _, db1, cache1, _) =>
    match CalendarSyncService.fetch_pages pages [] with
    | Except.error e => (Except.error e, db1, cache1)
    | Except.ok all_events =>
      let has_deleted := all_events.any (fun ev => ev.status == some "cancelled")
      (Except.ok (all_events, has_deleted), db1, cache1)

/-- The WHERE user_id = :u AND google_event_id = :gid condition used both
by the cancelled-event update and (as the unique_user_google_event
conflict target of calendar_event.py lines 56-61) by the upsert. -/
def eventKeyB (user_id google_event_id : String) (r : EventRow) : Bool :=
  r.user_id == user_id && r.google_event_id == google_event_id

/-- The body of the per-event loop of _store_events (lines 217-296),
applied to the accumulated (database, result) pair. -/
def CalendarSyncService.store_one_event (user_id : String) (is_incremental : Bool)
    (now : Time) (acc : DB × SyncResult) (event : GEvent) : DB × SyncResult :=
  let (db, result) := acc
  match event.id with
  | none => acc
  | some google_event_id =>
    if event.status == some "cancelled" then
      ({ db with calendar_events := db.calendar_events.map (fun r =>
            if eventKeyB user_id google_event_id r then
              { r with is_deleted := true, synced_at := now }
            else r) },
        { result with events_deleted := result.events_deleted + 1 })
    else
      match event.start_dateTime with
      | none => acc
      | some start_parse =>
        match start_parse, event.end_dateTime.bind id with
        | some start_time, some end_time =>
          let title := event.summary.getD "Untitled Event"
          let attendees_count : Option Nat :=
            match event.attendees with
            | some (a :: rest) => some (a :: rest).length
            | _ => none
          let db1 :=
            if db.calendar_events.any (eventKeyB user_id google_event_id) then
              { db with calendar_events := db.calendar_events.map (fun r =>
                  if eventKeyB user_id google_event_id r then
                    { r with
                      title := title
                      description := event.description
                      start_time := start_time
                      end_time := end_time
                      location := event.location
                      attendees_count := attendees_count
                      etag := event.etag
                      synced_at := now
                      is_deleted := false }
                  else r) }
            else
              { db with
                calendar_events := db.calendar_events ++
                  [{ id := db.next_event_id
                     user_id := user_id
                     google_event_id := google_event_id
                     title := title
                     description := event.description
                     start_time := start_time
                     end_time := end_time
                     location := event.location
                     attendees_count := attendees_count
                     etag := event.etag
                     synced_at := now
                     is_deleted := false }]
                next_event_id := db.next_event_id + 1 }
          let result1 :=
            if is_incremental then { result with events_updated := result.events_updated + 1 }
            else { result with events_added := result.events_added + 1 }
          (db1, result1)
        | _, _ => acc

/-- CalendarSyncService._store_events (lines 210-299).  The loop mutates
rows inside one transaction; the single commit at the end (line 298) is
modelled by commit_ok — when it fails the transaction is not applied and
the error carries the database as it was before the call. -/
def CalendarSyncService.store_events (db : DB) (user_id : String) (events : List GEvent)
    (is_incremental : Bool) (now : Time) (commit_ok : Bool) :
    Except (SyncError × DB) (SyncResult × DB) :=
  let init : DB × SyncResult :=
    (db, { events_added := 0, events_updated := 0, events_deleted := 0,
           is_full_sync := !is_incremental })
  let out := events.foldl (CalendarSyncService.store_one_event user_id is_incremental now) init
  if commit_ok then Except.ok (out.2, out.1)
  else Except.error (SyncError.calendarSyncError "commit failed", db)

/-- CalendarSyncService.get_sync_state (lines 89-105), as the row rather
than the dict the source builds from it. -/
def CalendarSyncService.get_sync_state (db : DB) (user_id : String) : Option SyncStateRow :=
  db.sync_states.find? (fun s => s.user_id == user_id)

/-- CalendarSyncService.update_sync_state (lines 107-122): upsert the
SyncState row on user_id conflict, setting last_sync and updated_at to now. -/
def CalendarSyncService.update_sync_state (db : DB) (user_id : String) (now : Time) : DB :=
  if db.sync_states.any (fun s => s.user_id == user_id) then
    { db with sync_states := db.sync_states.map (fun s =>
        if s.user_id == user_id then { s with last_sync := some now, updated_at := some now }
        else s) }
  else
    { db with sync_states :=
        db.sync_states ++ [{ user_id := user_id, last_sync := some now, updated_at := some now }] }

/-- CalendarSyncService.sync_calendar (lines 301-349).  fetch abstracts
_fetch_events_from_google's outcome for a given updated_min (it never
writes sync_states: it touches only the token table and the access-token
cache).  Errors carry the database as the failed call leaves it. -/
def CalendarSyncService.sync_calendar (db : DB) (user_id : String) (force_full : Bool)
    (now : Time) (fetch : Option Time → Except SyncError (List GEvent × Bool))
    (commit_ok : Bool) : Except (SyncError × DB) (SyncResult × DB) :=
  let state := CalendarSyncService.get_sync_state db user_id
  let last_sync : Option Time :=
    if force_full then none else state.bind (fun s => s.last_sync)
  match last_sync with
  | some t =>
    match fetch (some t) with
    | Except.error e => Except.error (e, db)
    | Except.ok (events, _) =>
      match CalendarSyncService.store_events db user_id events true now commit_ok with
      | Except.error ed => Except.error ed
      | Except.ok (result, db1) =>
        Except.ok (result, CalendarSyncService.update_sync_state db1 user_id now)
  | none =>
    match fetch none with
    | Except.error e => Except.error (e, db)
    | Except.ok (events, _) =>
      match CalendarSyncService.store_events db user_id events false now commit_ok with
      | Except.error ed => Except.error ed
      | Except.ok (result, db1) =>
        Except.ok ({ result with is_full_sync := true },
          CalendarSyncService.update_sync_state db1 user_id now)

/-- The ORDER BY start_time relation on calendar_events rows. -/
def eventStartLe (a b : EventRow) : Prop := a.start_time ≤ b.start_time

instance : DecidableRel eventStartLe :=
  fun a b => inferInstanceAs (Decidable (a.start_time ≤ b.start_time))

instance : IsTotal EventRow eventStartLe :=
  ⟨fun a b => Int.le_total a.start_time b.start_time⟩

instance : IsTrans EventRow eventStartLe :=
  ⟨fun _ _ _ h1 h2 => le_trans h1 h2⟩

/-- The ORDER BY created_at DESC relation on hype_records rows. -/
def hypeCreatedGe (a b : HypeRow) : Prop := b.created_at ≤ a.created_at

instance : DecidableRel hypeCreatedGe :=
  fun a b => inferInstanceAs (Decidable (b.created_at ≤ a.created_at))

instance : IsTotal HypeRow hypeCreatedGe :=
  ⟨fun a b => (Int.le_total b.created_at a.created_at)⟩

instance : IsTrans HypeRow hypeCreatedGe :=
  ⟨fun _ _ _ h1 h2 => le_trans h2 h1⟩

/-- The filter of the events select in get_cached_events (lines 385-397):
same user, not deleted, end_time > time_min, start_time <= time_max. -/
def eventWindowB (user_id : String) (time_min time_max : Time) (r : EventRow) : Bool :=
  r.user_id == user_id && !r.is_deleted && time_min < r.end_time && r.start_time ≤ time_max

/-- The loop building latest_hype_map (lines 424-432) from the hype rows
already ordered by created_at descending: the first row per truthy
google_event_id wins; a falsy id (absent or empty) is skipped.
manager_style defaults to ferguson when falsy. -/
def buildLatestHypeMap : List HypeRow → List (String × LatestHypeData) →
    List (String × LatestHypeData)
  | [], m => m
  | h :: hs, m =>
    match h.google_event_id with
    | none => buildLatestHypeMap hs m
    | some gid =>
      if gid ≠ "" && m.all (fun p => p.1 != gid) then
        buildLatestHypeMap hs (m ++ [(gid,
          { hype_text := h.hype_text
            audio_url := h.audio_url
            manager_style :=
              match h.manager_style with
              | some s => if s = "" then "ferguson" else s
              | none => "ferguson" })])
      else
        buildLatestHypeMap hs m

/-- The events select of get_cached_events (lines 385-399): the user's
rows in the window, ordered by start_time, limited to max_results. -/
def CalendarSyncService.eventRowsFor (db : DB) (user_id : String) (tmin tmax : Time)
    (max_results : Nat) : List EventRow :=
  ((db.calendar_events.filter (eventWindowB user_id tmin tmax)).insertionSort
    eventStartLe).take max_results

/-- The hype select and latest-per-event fold of get_cached_events
(lines 407-432), for the listed google_event_ids. -/
def CalendarSyncService.latestHypeMapFor (db : DB) (user_id : String)
    (google_event_ids : List String) : List (String × LatestHypeData) :=
  buildLatestHypeMap
    ((db.hype_records.filter (fun h =>
        h.user_id == user_id &&
        (match h.google_event_id with
         | some g => google_event_ids.contains g
         | none => false) &&
        (h.status == "text_ready" || h.status == "audio_ready"))).insertionSort
      hypeCreatedGe) []

/-- The CachedEvent built per row in the result loop (lines 434-453). -/
def rowToCachedEvent (latest_hype_map : List (String × LatestHypeData)) (r : EventRow) :
    CachedEvent :=
  { id := r.id
    user_id := r.user_id
    google_event_id := r.google_event_id
    title := r.title
    description := r.description
    start_time := r.start_time
    end_time := r.end_time
    location := r.location
    attendees_count := r.attendees_count
    etag := r.etag
    synced_at := r.synced_at
    is_deleted := r.is_deleted
    latest_hype := (latest_hype_map.find? (fun p => p.1 == r.google_event_id)).map
      (fun p => p.2) }

/-- CalendarSyncService.get_cached_events (lines 351-455).  now supplies
datetime.now for the window defaults: time_min defaults to now, time_max
to time_min + 24 hours.  Selects the user's non-deleted rows with
end_time > time_min and start_time <= time_max ordered by start_time
ascending, keeps at most max_results, then joins each with the newest
content-ready hype record sharing its google_event_id. -/
def CalendarSyncService.get_cached_events (db : DB) (user_id : String)
    (time_min time_max : Option Time) (max_results : Nat) (now : Time) :
    List CachedEvent :=
  let tmin := time_min.getD now
  let tmax := time_max.getD (tmin + 24 * 3600)
  let event_rows := CalendarSyncService.eventRowsFor db user_id tmin tmax max_results
  if event_rows.isEmpty then []
  else
    let google_event_ids := event_rows.map (fun r => r.google_event_id)
    let latest_hype_map := CalendarSyncService.latestHypeMapFor db user_id google_event_ids
    event_rows.map (rowToCachedEvent latest_hype_map)

/-! ## Theorems -/

/-- Once using_fallback is set, every subsequent operation routes to the
fallback backend, whatever the primary's health checks would answer. -/
theorem CacheService.run_backends_of_using_fallback (ps : List Bool) (s : CacheServiceState)
    (h : s.using_fallback = true) :
    CacheService.run_backends ps s = List.replicate ps.length CacheBackendKind.fallback := by
  induction ps generalizing s with
  | nil => rfl
  | cons p ps ih =>
    have hg : CacheService.get_backend p s = (CacheBackendKind.fallback, s) := by
      unfold CacheService.get_backend
      rw [h]
      simp
    simp [CacheService.run_backends, hg, ih s h, List.replicate_succ]

/-- C6: for every sequence of CacheService operations in one process, once
a primary-backend health check fails (the operation that observes
ping = false switches the service to fallback), every subsequent
get/set/delete routes to the fallback backend and never invokes the
primary again, even if a later health check of the primary would succeed:
the routing is the same for every list of later ping answers. -/
theorem cache_fallback_is_one_way (s : CacheServiceState) (later_pings : List Bool) :
    ((CacheService.get_backend false s).2).using_fallback = true ∧
    CacheService.run_backends later_pings (CacheService.get_backend false s).2 =
      List.replicate later_pings.length CacheBackendKind.fallback := by
  have hflag : ((CacheService.get_backend false s).2).using_fallback = true := by
    unfold CacheService.get_backend
    cases hs : s.using_fallback <;> simp [hs]
  exact ⟨hflag, CacheService.run_backends_of_using_fallback _ _ hflag⟩

/-- C7: decrypting the vault's encryption of any token string x yields x
back, and two encrypt calls on the same plaintext with distinct nonces
(the nonce is drawn fresh at random per call) produce different
ciphertexts. -/
theorem encrypt_decrypt_roundtrip_and_nonce_distinct (key_id n1 n2 : Nat) (x : String)
    (h : n1 ≠ n2) :
    GoogleTokenService.decrypt_token key_id (GoogleTokenService.encrypt_token key_id n1 x) =
      Except.ok x ∧
    GoogleTokenService.encrypt_token key_id n1 x ≠ GoogleTokenService.encrypt_token key_id n2 x := by
  refine ⟨?_, ?_⟩
  · simp [GoogleTokenService.decrypt_token, GoogleTokenService.encrypt_token, fernetEncrypt,
      fernetDecrypt]
  · intro hc
    exact h (congrArg FernetToken.nonce hc)

/-- Witness for C7 at key 0, nonces 1 and 2, plaintext "refresh-token". -/
theorem encrypt_decrypt_roundtrip_witness :
    GoogleTokenService.decrypt_token 0 (GoogleTokenService.encrypt_token 0 1 "refresh-token") =
      Except.ok "refresh-token" ∧
    GoogleTokenService.encrypt_token 0 1 "refresh-token" ≠
      GoogleTokenService.encrypt_token 0 2 "refresh-token" :=
  encrypt_decrypt_roundtrip_and_nonce_distinct 0 1 2 "refresh-token" (by decide)

/-- C9: with a live cached access-token entry (expiry still in the
future), get_access_token returns the cached token immediately: no
refresh-token read, no outbound HTTP call, no rotated-token store (empty
action list), and both the database and the cache are unchanged. -/
theorem cached_access_token_returned_without_side_effects (key_id nonce : Nat) (now : Time)
    (exchange : TokenEndpointResponse) (db : DB) (cache : AccessTokenCache)
    (user_id token : String) (expires_at : Time)
    (hhit : cacheLookup cache user_id = some (token, expires_at))
    (hlive : now < expires_at) :
    GoogleTokenService.get_access_token key_id nonce now exchange db cache user_id =
      (Except.ok token, db, cache, []) := by
  unfold GoogleTokenService.get_access_token
  rw [hhit]
  simp [hlive]

/-- A database value with all tables empty. -/
def dbEmpty : DB :=
  { calendar_events := [], next_event_id := 0, sync_states := [], hype_records := [],
    user_google_tokens := [] }

/-- A successful token-endpoint response, unused on cache hits. -/
def exchangeUnused : TokenEndpointResponse :=
  { status_code := 200, access_token := "fresh", new_refresh_token := none,
    error_code := none, error_description := none }

/-- Witness for C9: a token cached until instant 3000, read at 600. -/
theorem cached_access_token_returned_witness :
    GoogleTokenService.get_access_token 0 0 600 exchangeUnused dbEmpty
      [("u", "cached-token", 3000)] "u" =
      (Except.ok "cached-token", dbEmpty, [("u", "cached-token", 3000)], []) :=
  cached_access_token_returned_without_side_effects 0 0 600 exchangeUnused dbEmpty
    [("u", "cached-token", 3000)] "u" "cached-token" 3000 (by decide) (by decide)

/-- C10: has_refresh_token answers false exactly when the lookup raises
NoRefreshTokenError (the row is absent), while a decryption failure
(GoogleTokenError) propagates out instead of being reported as false. -/
theorem has_refresh_token_false_iff_no_token (key_id : Nat) (db : DB) (user_id : String) :
    (GoogleTokenService.has_refresh_token key_id db user_id = Except.ok false ↔
      GoogleTokenService.get_refresh_token key_id db user_id =
        Except.error (SyncError.noRefreshTokenError "No refresh token found for user")) ∧
    (∀ m, GoogleTokenService.get_refresh_token key_id db user_id =
        Except.error (SyncError.googleTokenError m) →
      GoogleTokenService.has_refresh_token key_id db user_id =
        Except.error (SyncError.googleTokenError m)) := by
  unfold GoogleTokenService.has_refresh_token GoogleTokenService.get_refresh_token
  cases hf : db.user_google_tokens.find? (fun r => r.user_id == user_id) with
  | none => simp
  | some row =>
    unfold GoogleTokenService.decrypt_token
    cases hd : fernetDecrypt key_id row.refresh_token with
    | none => simp [hd]
    | some s => simp [hd]

/-- A database whose stored credential for user u was encrypted under a
different key (key 2) than the process key used to read it (key 1). -/
def dbWrongKey : DB :=
  { calendar_events := [], next_event_id := 0, sync_states := [], hype_records := [],
    user_google_tokens := [{ user_id := "u", refresh_token := fernetEncrypt 2 0 "rt",
                             updated_at := 0 }] }

/-- Witness for C10: the decryption failure propagates out of
has_refresh_token instead of being reported as false. -/
theorem has_refresh_token_false_iff_no_token_witness :
    GoogleTokenService.has_refresh_token 1 dbWrongKey "u" =
      Except.error (SyncError.googleTokenError "Token decryption failed") :=
  (has_refresh_token_false_iff_no_token 1 dbWrongKey "u").2 "Token decryption failed" (by decide)

/-- C3 (amended): when the refresh-token exchange answers non-200 with
error invalid_grant (and no live cached token short-circuits the call),
get_access_token fails with NoRefreshTokenError — but the access-token
cache is returned exactly as it was: a previously-cached (now expired)
entry is left in place, not evicted. -/
theorem invalid_grant_fails_no_refresh_token_cache_not_evicted (key_id nonce : Nat) (now : Time)
    (resp : TokenEndpointResponse) (db : DB) (cache : AccessTokenCache) (user_id : String)
    (hstale : ∀ te, cacheLookup cache user_id = some te → te.2 ≤ now)
    (hrt : ∃ rt, GoogleTokenService.get_refresh_token key_id db user_id = Except.ok rt)
    (hst : resp.status_code ≠ 200)
    (hig : resp.error_code = some "invalid_grant") :
    GoogleTokenService.get_access_token key_id nonce now resp db cache user_id =
      (Except.error (SyncError.noRefreshTokenError "Refresh token has been revoked"), db, cache,
        [TokenAction.db_read_refresh_token, TokenAction.http_token_exchange]) := by
  obtain ⟨rt, hrtv⟩ := hrt
  cases hc : cacheLookup cache user_id with
  | none =>
    simp only [GoogleTokenService.get_access_token, hc, hrtv]
    unfold GoogleTokenService.exchange_refresh_token
    simp [hst, hig]
  | some te =>
    obtain ⟨t, e⟩ := te
    have he : e ≤ now := hstale (t, e) hc
    simp only [GoogleTokenService.get_access_token, hc]
    rw [if_neg (not_lt.mpr he)]
    simp only [hrtv]
    unfold GoogleTokenService.exchange_refresh_token
    simp [hst, hig]

/-- A database holding an encrypted refresh token for user u under the
process key 1. -/
def dbStoredToken : DB :=
  { calendar_events := [], next_event_id := 0, sync_states := [], hype_records := [],
    user_google_tokens := [{ user_id := "u", refresh_token := fernetEncrypt 1 3 "rt",
                             updated_at := 0 }] }

/-- An exchange response reporting the refresh token revoked. -/
def respInvalidGrant : TokenEndpointResponse :=
  { status_code := 400, access_token := "", new_refresh_token := none,
    error_code := some "invalid_grant",
    error_description := some "Token has been expired or revoked." }

/-- C3 counterexample: at instant 200 with an entry cached until 100, the
invalid_grant exchange makes get_access_token fail with
NoRefreshTokenError, yet the previously-cached entry for u is still in
the returned cache — it is not evicted, contradicting the claimed
eviction. -/
theorem invalid_grant_eviction_counterexample :
    (GoogleTokenService.get_access_token 1 7 200 respInvalidGrant dbStoredToken
        [("u", "stale-token", 100)] "u").1 =
      Except.error (SyncError.noRefreshTokenError "Refresh token has been revoked") ∧
    (GoogleTokenService.get_access_token 1 7 200 respInvalidGrant dbStoredToken
        [("u", "stale-token", 100)] "u").2.2.1 = [("u", "stale-token", 100)] ∧
    cacheLookup [("u", "stale-token", 100)] "u" = some ("stale-token", 100) := by
  decide

/-- Witness for the amended C3 at the concrete revoked-token scenario. -/
theorem invalid_grant_fails_witness :
    GoogleTokenService.get_access_token 1 7 200 respInvalidGrant dbStoredToken
        [("u", "stale-token", 100)] "u" =
      (Except.error (SyncError.noRefreshTokenError "Refresh token has been revoked"),
        dbStoredToken, [("u", "stale-token", 100)],
        [TokenAction.db_read_refresh_token, TokenAction.http_token_exchange]) :=
  invalid_grant_fails_no_refresh_token_cache_not_evicted 1 7 200 respInvalidGrant dbStoredToken
    [("u", "stale-token", 100)] "u"
    (by
      intro te h
      have h2 : some (("stale-token" : String), (100 : Time)) = some te := h
      cases h2
      decide)
    ⟨"rt", by decide⟩ (by decide) (by decide)

/-- C4 (amended): an event-fetch page answered with HTTP 401 makes
_fetch_events_from_google fail with TokenRefreshError ("Access token
invalid") — but it performs no eviction: the access-token cache it
returns is exactly the one the preceding get_access_token call produced,
with the user's cached (possibly poisoned) entry still in place. -/
theorem fetch_401_raises_token_refresh_error_without_eviction (key_id nonce : Nat) (now : Time)
    (exchange : TokenEndpointResponse) (resp : EventsPageResponse)
    (rest : List EventsPageResponse) (db : DB) (cache : AccessTokenCache)
    (user_id : String) (updated_min : Option Time) (token : String) (db1 : DB)
    (cache1 : AccessTokenCache) (acts : List TokenAction)
    (htok : GoogleTokenService.get_access_token key_id nonce now exchange db cache user_id =
      (Except.ok token, db1, cache1, acts))
    (h401 : resp.status_code = 401) :
    CalendarSyncService.fetch_events_from_google key_id nonce now exchange (resp :: rest)
        db cache user_id updated_min =
      (Except.error (SyncError.tokenRefreshError "Access token invalid"), db1, cache1) := by
  unfold CalendarSyncService.fetch_events_from_google
  rw [htok]
  unfold CalendarSyncService.fetch_pages
  simp [h401]

/-- A page request answered 401 by the provider. -/
def page401 : EventsPageResponse :=
  { status_code := 401, items := [], nextPageToken := none, error_message := "" }

/-- C4 counterexample: user w holds a live cached access token; the 401
page makes the fetch fail with TokenRefreshError, yet the returned cache
still contains w's entry — the poisoned cached token is not evicted, so
the next attempt reuses it instead of re-deriving. -/
theorem fetch_401_eviction_counterexample :
    CalendarSyncService.fetch_events_from_google 0 0 700 exchangeUnused [page401]
        dbEmpty [("w", "poisoned-token", 4000)] "w" none =
      (Except.error (SyncError.tokenRefreshError "Access token invalid"), dbEmpty,
        [("w", "poisoned-token", 4000)]) ∧
    cacheLookup [("w", "poisoned-token", 4000)] "w" = some ("poisoned-token", 4000) := by
  decide

/-- Witness for the amended C4: cache-hit token, then a 401 page. -/
theorem fetch_401_no_eviction_witness :
    CalendarSyncService.fetch_events_from_google 0 0 600 exchangeUnused [page401]
        dbEmpty [("u", "cached-token", 3000)] "u" none =
      (Except.error (SyncError.tokenRefreshError "Access token invalid"), dbEmpty,
        [("u", "cached-token", 3000)]) :=
  fetch_401_raises_token_refresh_error_without_eviction 0 0 600 exchangeUnused page401 []
    dbEmpty [("u", "cached-token", 3000)] "u" none "cached-token" dbEmpty
    [("u", "cached-token", 3000)] [] (by decide) (by decide)

/-- C5 (amended): a page answered with any non-200, non-401 status (403
included) makes _fetch_events_from_google fail with the generic
CalendarSyncError carrying the provider's message.  That error is indeed
distinct from the 401 TokenRefreshError, but there is no dedicated
InsufficientScope error: a 403 produces the same error constructor as a
429 or 500 with the same message. -/
theorem fetch_403_raises_generic_calendar_sync_error (key_id nonce : Nat) (now : Time)
    (exchange : TokenEndpointResponse) (resp : EventsPageResponse)
    (rest : List EventsPageResponse) (db : DB) (cache : AccessTokenCache)
    (user_id : String) (updated_min : Option Time) (token : String) (db1 : DB)
    (cache1 : AccessTokenCache) (acts : List TokenAction)
    (htok : GoogleTokenService.get_access_token key_id nonce now exchange db cache user_id =
      (Except.ok token, db1, cache1, acts))
    (hn200 : resp.status_code ≠ 200) (hn401 : resp.status_code ≠ 401) :
    CalendarSyncService.fetch_events_from_google key_id nonce now exchange (resp :: rest)
        db cache user_id updated_min =
      (Except.error
          (SyncError.calendarSyncError ("Failed to fetch events: " ++ resp.error_message)),
        db1, cache1) ∧
    ∀ m, SyncError.calendarSyncError ("Failed to fetch events: " ++ resp.error_message) ≠
      SyncError.tokenRefreshError m := by
  refine ⟨?_, fun m h => by cases h⟩
  unfold CalendarSyncService.fetch_events_from_google
  rw [htok]
  unfold CalendarSyncService.fetch_pages
  simp [hn200, hn401]

/-- A page request answered 403 by the provider. -/
def page403 : EventsPageResponse :=
  { status_code := 403, items := [], nextPageToken := none,
    error_message := "Insufficient Permission" }

/-- A page request answered 500 by the provider with the same message. -/
def page500 : EventsPageResponse :=
  { status_code := 500, items := [], nextPageToken := none,
    error_message := "Insufficient Permission" }

/-- C5 counterexample: the 403 fetch failure is the generic
CalendarSyncError and is the very same error value a 500 response with
the same message produces — no dedicated InsufficientScope error exists
that would let a caller tell missing calendar permission apart from other
provider errors. -/
theorem fetch_403_insufficient_scope_counterexample :
    (CalendarSyncService.fetch_events_from_google 0 0 800 exchangeUnused [page403]
        dbEmpty [("v", "tok-v", 5000)] "v" none).1 =
      Except.error
        (SyncError.calendarSyncError "Failed to fetch events: Insufficient Permission") ∧
    (CalendarSyncService.fetch_events_from_google 0 0 800 exchangeUnused [page403]
        dbEmpty [("v", "tok-v", 5000)] "v" none).1 =
      (CalendarSyncService.fetch_events_from_google 0 0 800 exchangeUnused [page500]
        dbEmpty [("v", "tok-v", 5000)] "v" none).1 := by
  decide

/-- Witness for the amended C5 at the concrete 403 scenario. -/
theorem fetch_403_generic_error_witness :
    CalendarSyncService.fetch_events_from_google 0 0 810 exchangeUnused [page403]
        dbEmpty [("x", "tok-x", 5000)] "x" none =
      (Except.error
          (SyncError.calendarSyncError "Failed to fetch events: Insufficient Permission"),
        dbEmpty, [("x", "tok-x", 5000)]) :=
  (fetch_403_raises_generic_calendar_sync_error 0 0 810 exchangeUnused page403 []
    dbEmpty [("x", "tok-x", 5000)] "x" none "tok-x" dbEmpty
    [("x", "tok-x", 5000)] [] (by decide) (by decide) (by decide)).1

/-- _store_events reports an error only from the final commit, and then
the transaction was not applied: the error carries the database exactly
as it was before the call. -/
theorem store_events_error_database (db : DB) (user_id : String) (events : List GEvent)
    (is_incremental : Bool) (now : Time) (commit_ok : Bool) (e : SyncError) (db1 : DB)
    (h : CalendarSyncService.store_events db user_id events is_incremental now commit_ok =
      Except.error (e, db1)) :
    db1 = db := by
  unfold CalendarSyncService.store_events at h
  by_cases hc : commit_ok = true
  · rw [if_pos hc] at h
    simp at h
  · rw [if_neg hc] at h
    simp only [Except.error.injEq, Prod.mk.injEq] at h
    exact h.2.symm

/-- C1: if the fetch step or the reconcile/commit step of sync_calendar
fails, the call surfaces the error and the SyncState table is exactly
what it was before the call: the last-sync cursor advances only when the
whole fetch-plus-reconcile pass completes without throwing. -/
theorem sync_state_unchanged_on_failed_sync (db : DB) (user_id : String) (force_full : Bool)
    (now : Time) (fetch : Option Time → Except SyncError (List GEvent × Bool))
    (commit_ok : Bool) (e : SyncError) (db1 : DB)
    (h : CalendarSyncService.sync_calendar db user_id force_full now fetch commit_ok =
      Except.error (e, db1)) :
    db1.sync_states = db.sync_states := by
  simp only [CalendarSyncService.sync_calendar] at h
  cases hls : (if force_full then none
      else (CalendarSyncService.get_sync_state db user_id).bind fun s => s.last_sync) with
  | some t =>
    rw [hls] at h
    dsimp only at h
    cases hf : fetch (some t) with
    | error ef =>
      rw [hf] at h
      dsimp only at h
      simp only [Except.error.injEq, Prod.mk.injEq] at h
      rw [← h.2]
    | ok evs =>
      obtain ⟨events, hd⟩ := evs
      rw [hf] at h
      dsimp only at h
      cases hs : CalendarSyncService.store_events db user_id events true now commit_ok with
      | error ed =>
        obtain ⟨es, dbs⟩ := ed
        rw [hs] at h
        dsimp only at h
        simp only [Except.error.injEq, Prod.mk.injEq] at h
        rw [← h.2]
        rw [store_events_error_database db user_id events true now commit_ok es dbs hs]
      | ok rd =>
        obtain ⟨result, dbr⟩ := rd
        rw [hs] at h
        dsimp only at h
        simp at h
  | none =>
    rw [hls] at h
    dsimp only at h
    cases hf : fetch none with
    | error ef =>
      rw [hf] at h
      dsimp only at h
      simp only [Except.error.injEq, Prod.mk.injEq] at h
      rw [← h.2]
    | ok evs =>
      obtain ⟨events, hd⟩ := evs
      rw [hf] at h
      dsimp only at h
      cases hs : CalendarSyncService.store_events db user_id events false now commit_ok with
      | error ed =>
        obtain ⟨es, dbs⟩ := ed
        rw [hs] at h
        dsimp only at h
        simp only [Except.error.injEq, Prod.mk.injEq] at h
        rw [← h.2]
        rw [store_events_error_database db user_id events false now commit_ok es dbs hs]
      | ok rd =>
        obtain ⟨result, dbr⟩ := rd
        rw [hs] at h
        dsimp only at h
        simp at h

/-- A database whose user u last synced at instant 50. -/
def dbSynced : DB :=
  { calendar_events := [], next_event_id := 0,
    sync_states := [{ user_id := "u", last_sync := some 50, updated_at := some 50 }],
    hype_records := [], user_google_tokens := [] }

/-- A fetch outcome in which the provider call throws. -/
def fetchFailing : Option Time → Except SyncError (List GEvent × Bool) :=
  fun _ => Except.error (SyncError.tokenRefreshError "Access token invalid")

/-- Witness for C1: an incremental sync whose fetch throws leaves the
SyncState table of dbSynced untouched. -/
theorem sync_state_unchanged_witness :
    CalendarSyncService.sync_calendar dbSynced "u" false 100 fetchFailing true =
      Except.error (SyncError.tokenRefreshError "Access token invalid", dbSynced) ∧
    dbSynced.sync_states = dbSynced.sync_states :=
  ⟨by decide,
    sync_state_unchanged_on_failed_sync dbSynced "u" false 100 fetchFailing true
      (SyncError.tokenRefreshError "Access token invalid") dbSynced (by decide)⟩

/-- The returned CachedEvent carries exactly the columns of a stored row. -/
def CachedEvent.matches_row (c : CachedEvent) (r : EventRow) : Prop :=
  c.id = r.id ∧ c.user_id = r.user_id ∧ c.google_event_id = r.google_event_id ∧
  c.title = r.title ∧ c.description = r.description ∧ c.start_time = r.start_time ∧
  c.end_time = r.end_time ∧ c.location = r.location ∧ c.attendees_count = r.attendees_count ∧
  c.etag = r.etag ∧ c.synced_at = r.synced_at ∧ c.is_deleted = r.is_deleted

/-- get_cached_events is the image of its row selection under the
per-row constructor (also when the selection is empty). -/
theorem get_cached_events_eq_map (db : DB) (user_id : String)
    (time_min time_max : Option Time) (max_results : Nat) (now : Time) :
    CalendarSyncService.get_cached_events db user_id time_min time_max max_results now =
      (CalendarSyncService.eventRowsFor db user_id (time_min.getD now)
          (time_max.getD (time_min.getD now + 24 * 3600)) max_results).map
        (rowToCachedEvent (CalendarSyncService.latestHypeMapFor db user_id
          ((CalendarSyncService.eventRowsFor db user_id (time_min.getD now)
            (time_max.getD (time_min.getD now + 24 * 3600)) max_results).map
              (fun r => r.google_event_id)))) := by
  unfold CalendarSyncService.get_cached_events
  dsimp only
  by_cases h : (CalendarSyncService.eventRowsFor db user_id (time_min.getD now)
      (time_max.getD (time_min.getD now + 24 * 3600)) max_results).isEmpty = true
  · rw [if_pos h]
    rw [List.isEmpty_iff] at h
    rw [h]
    rfl
  · rw [if_neg h]

/-- C2: with the window defaulting to [now, now + 24h], get_cached_events
returns at most max_results events; every returned event is a stored row
of the user satisfying end_time > timeMin, start_time <= timeMax and
is_deleted = false; the result is ordered ascending by start_time; and
whenever at most max_results stored rows satisfy the window, every such
row appears in the result. -/
theorem get_cached_events_window_spec (db : DB) (user_id : String)
    (time_min time_max : Option Time) (max_results : Nat) (now : Time)
    (tmin tmax : Time) (htmin : tmin = time_min.getD now)
    (htmax : tmax = time_max.getD (tmin + 24 * 3600)) :
    (CalendarSyncService.get_cached_events db user_id time_min time_max max_results now).length
        ≤ max_results ∧
    (∀ c ∈ CalendarSyncService.get_cached_events db user_id time_min time_max max_results now,
      ∃ r ∈ db.calendar_events, eventWindowB user_id tmin tmax r = true ∧
        c.matches_row r) ∧
    (CalendarSyncService.get_cached_events db user_id time_min time_max max_results now).Sorted
      (fun a b => a.start_time ≤ b.start_time) ∧
    ((db.calendar_events.filter (eventWindowB user_id tmin tmax)).length ≤ max_results →
      ∀ r ∈ db.calendar_events, eventWindowB user_id tmin tmax r = true →
        ∃ c ∈ CalendarSyncService.get_cached_events db user_id time_min time_max max_results now,
          c.matches_row r) := by
  subst htmin
  subst htmax
  rw [get_cached_events_eq_map]
  unfold CalendarSyncService.eventRowsFor
  set L := db.calendar_events.filter
    (eventWindowB user_id (time_min.getD now) (time_max.getD (time_min.getD now + 24 * 3600)))
    with hL
  set S := L.insertionSort eventStartLe with hS
  set T := S.take max_results with hT
  set m := CalendarSyncService.latestHypeMapFor db user_id
    (T.map (fun r => r.google_event_id)) with hm
  have hS_sorted : S.Pairwise eventStartLe := List.sorted_insertionSort _ _
  have hS_perm : S.Perm L := List.perm_insertionSort _ _
  refine ⟨?_, ?_, ?_, ?_⟩
  · rw [List.length_map]
    exact List.length_take_le _ _
  · intro c hc
    rw [List.mem_map] at hc
    obtain ⟨r, hrT, rfl⟩ := hc
    have hrS : r ∈ S := List.take_subset _ _ hrT
    have hrL : r ∈ L := hS_perm.mem_iff.mp hrS
    rw [hL, List.mem_filter] at hrL
    exact ⟨r, hrL.1, hrL.2, by
      simp [rowToCachedEvent, CachedEvent.matches_row]⟩
  · rw [List.Sorted]
    rw [List.pairwise_map]
    have hTp : T.Pairwise eventStartLe := hS_sorted.sublist (List.take_sublist _ _)
    exact hTp.imp (fun h => by simpa [rowToCachedEvent, eventStartLe] using h)
  · intro hlen r hr hw
    have hrL : r ∈ L := by
      rw [hL, List.mem_filter]
      exact ⟨hr, hw⟩
    have hTS : T = S := by
      rw [hT]
      exact List.take_of_length_le (by rw [hS_perm.length_eq]; exact hlen)
    have hrT : r ∈ T := by
      rw [hTS]
      exact hS_perm.mem_iff.mpr hrL
    exact ⟨rowToCachedEvent m r, List.mem_map_of_mem _ hrT, by
      simp [rowToCachedEvent, CachedEvent.matches_row]⟩

/-- An event row of user u for concrete scenarios. -/
def mkEventRow (rid : Nat) (gid : String) (s e : Time) : EventRow :=
  { id := rid, user_id := "u", google_event_id := gid, title := "t", description := none,
    start_time := s, end_time := e, location := none, attendees_count := none,
    etag := none, synced_at := 0, is_deleted := false }

/-- Three cached events: one in the window, one already over, one
starting inside it. -/
def dbWindow : DB :=
  { calendar_events := [mkEventRow 0 "a" 10 20, mkEventRow 1 "b" 5 8, mkEventRow 2 "c" 15 30],
    next_event_id := 3, sync_states := [], hype_records := [], user_google_tokens := [] }

/-- Witness for C2 on dbWindow with window [9, 16]: at most 50 rows come
back, and the row starting at 15 is among them. -/
theorem get_cached_events_window_witness :
    (CalendarSyncService.get_cached_events dbWindow "u" (some 9) (some 16) 50 0).length ≤ 50 ∧
    (∃ c ∈ CalendarSyncService.get_cached_events dbWindow "u" (some 9) (some 16) 50 0,
      c.matches_row (mkEventRow 2 "c" 15 30)) :=
  ⟨(get_cached_events_window_spec dbWindow "u" (some 9) (some 16) 50 0 9 16 rfl rfl).1,
   (get_cached_events_window_spec dbWindow "u" (some 9) (some 16) 50 0 9 16 rfl rfl).2.2.2
     (by decide) (mkEventRow 2 "c" 15 30) (by decide) (by decide)⟩

/-- Filtering after a keyed in-place update maps the update over the
previously matching rows (the update preserves the key). -/
theorem filter_map_keyed_update (p : EventRow → Bool) (f : EventRow → EventRow)
    (hf : ∀ r, p r = true → p (f r) = true) (l : List EventRow) :
    (l.map (fun r => if p r then f r else r)).filter p = (l.filter p).map f := by
  induction l with
  | nil => rfl
  | cons a l ih =>
    cases h : p a with
    | true => simp [h, hf a h, ih]
    | false => simp [h, ih]

/-- A keyed in-place update that fixes every matching row is the
identity. -/
theorem map_keyed_update_id (p : EventRow → Bool) (f : EventRow → EventRow) (l : List EventRow)
    (h : ∀ r ∈ l, p r = true → f r = r) :
    l.map (fun r => if p r then f r else r) = l := by
  induction l with
  | nil => rfl
  | cons a l ih =>
    have ih' := ih (fun r hr hpr => h r (List.mem_cons_of_mem a hr) hpr)
    cases hp : p a with
    | true => simp [hp, h a (List.mem_cons_self a l) hp, ih']
    | false => simp [hp, ih']

/-- A fetched item that reaches the upsert: an id, not cancelled, and
parseable start and end instants. -/
def upsertableWith (gid : String) (s t : Time) (e : GEvent) : Prop :=
  e.id = some gid ∧ (e.status == some "cancelled") = false ∧
  e.start_dateTime = some (some s) ∧ e.end_dateTime = some (some t)

/-- The column values the upsert of _store_events writes for an event
(the VALUES and ON CONFLICT SET lists of lines 259-288). -/
def upsertRow (user_id gid : String) (e : GEvent) (s t : Time) (now : Time) (rid : Nat) :
    EventRow :=
  { id := rid
    user_id := user_id
    google_event_id := gid
    title := e.summary.getD "Untitled Event"
    description := e.description
    start_time := s
    end_time := t
    location := e.location
    attendees_count :=
      match e.attendees with
      | some (a :: rest) => some ((a :: rest).length)
      | _ => none
    etag := e.etag
    synced_at := now
    is_deleted := false }

/-- One upsert step on a table respecting the unique constraint (at most
one row per key) leaves exactly one row for the key, carrying the
event's values. -/
theorem store_one_event_upsert (user_id gid : String) (inc : Bool) (now : Time)
    (db : DB) (res : SyncResult) (e : GEvent) (s t : Time)
    (he : upsertableWith gid s t e)
    (hkey : (db.calendar_events.filter (eventKeyB user_id gid)).length ≤ 1) :
    ∃ rid,
      (CalendarSyncService.store_one_event user_id inc now (db, res) e).1.calendar_events.filter
        (eventKeyB user_id gid) = [upsertRow user_id gid e s t now rid] := by
  obtain ⟨hid, hstat, hstart, hend⟩ := he
  unfold CalendarSyncService.store_one_event
  rw [hid, hstat, hstart, hend]
  dsimp only
  rw [if_neg (show ¬(false = true) by simp)]
  dsimp only [Option.bind, id]
  by_cases hany : db.calendar_events.any (eventKeyB user_id gid) = true
  · rw [if_pos hany]
    dsimp only
    have hm := filter_map_keyed_update (eventKeyB user_id gid)
        (fun r => ({ id := r.id
                     user_id := r.user_id
                     google_event_id := r.google_event_id
                     title := e.summary.getD "Untitled Event"
                     description := e.description
                     start_time := s
                     end_time := t
                     location := e.location
                     attendees_count :=
                       match e.attendees with
                       | some (a :: rest) => some (a :: rest).length
                       | x => none
                     etag := e.etag
                     synced_at := now
                     is_deleted := false } : EventRow))
        (fun r hr => by simpa [eventKeyB] using hr)
        db.calendar_events
    rw [hm]
    obtain ⟨x, hxmem, hx⟩ := List.any_eq_true.mp hany
    have hxf : x ∈ db.calendar_events.filter (eventKeyB user_id gid) :=
      List.mem_filter.mpr ⟨hxmem, hx⟩
    have hlen1 : (db.calendar_events.filter (eventKeyB user_id gid)).length = 1 := by
      have hge : 1 ≤ (db.calendar_events.filter (eventKeyB user_id gid)).length := by
        cases hfe : db.calendar_events.filter (eventKeyB user_id gid) with
        | nil => rw [hfe] at hxf; cases hxf
        | cons a l => simp [hfe]
      omega
    obtain ⟨r0, hr0⟩ := List.length_eq_one.mp hlen1
    rw [hr0]
    have hpr0 : eventKeyB user_id gid r0 = true := by
      have hmem : r0 ∈ db.calendar_events.filter (eventKeyB user_id gid) := by
        rw [hr0]; exact List.mem_singleton_self r0
      exact (List.mem_filter.mp hmem).2
    rw [eventKeyB, Bool.and_eq_true] at hpr0
    have hu : r0.user_id = user_id := eq_of_beq hpr0.1
    have hg : r0.google_event_id = gid := eq_of_beq hpr0.2
    exact ⟨r0.id, by simp [upsertRow, hu, hg]⟩
  · rw [if_neg hany]
    dsimp only
    have hnil : db.calendar_events.filter (eventKeyB user_id gid) = [] := by
      rw [List.filter_eq_nil_iff]
      intro a ha hpa
      exact hany (List.any_eq_true.mpr ⟨a, ha, hpa⟩)
    rw [List.filter_append, hnil]
    refine ⟨db.next_event_id, ?_⟩
    simp [eventKeyB, upsertRow]

/-- Re-applying the upsert of an event whose row already carries exactly
its values changes neither the events table nor the id counter. -/
theorem store_one_event_upsert_idempotent (user_id gid : String) (inc : Bool) (now : Time)
    (db : DB) (res : SyncResult) (e : GEvent) (s t : Time) (rid : Nat)
    (he : upsertableWith gid s t e)
    (hrow : db.calendar_events.filter (eventKeyB user_id gid) =
      [upsertRow user_id gid e s t now rid]) :
    (CalendarSyncService.store_one_event user_id inc now (db, res) e).1.calendar_events =
      db.calendar_events ∧
    (CalendarSyncService.store_one_event user_id inc now (db, res) e).1.next_event_id =
      db.next_event_id := by
  obtain ⟨hid, hstat, hstart, hend⟩ := he
  unfold CalendarSyncService.store_one_event
  rw [hid, hstat, hstart, hend]
  dsimp only
  rw [if_neg (show ¬(false = true) by simp)]
  dsimp only [Option.bind, id]
  have hany : db.calendar_events.any (eventKeyB user_id gid) = true := by
    apply List.any_eq_true.mpr
    have hmem : upsertRow user_id gid e s t now rid ∈
        db.calendar_events.filter (eventKeyB user_id gid) := by
      rw [hrow]
      exact List.mem_singleton_self _
    obtain ⟨hm1, hm2⟩ := List.mem_filter.mp hmem
    exact ⟨_, hm1, hm2⟩
  rw [if_pos hany]
  dsimp only
  constructor
  · apply map_keyed_update_id
    intro r hr hpr
    have hrf : r ∈ db.calendar_events.filter (eventKeyB user_id gid) :=
      List.mem_filter.mpr ⟨hr, hpr⟩
    rw [hrow, List.mem_singleton] at hrf
    subst hrf
    simp [upsertRow]
  · rfl

/-- C8: within one batch, upserting two items carrying the same
(user_id, google_event_id) key leaves exactly one CachedEvent row for
that key, carrying the second item's values (last-write-wins, never a
duplicate row); and re-applying the same item is idempotent: a second
one-item batch leaves the events table and the id counter unchanged.
The hypothesis on db is the unique_user_google_event constraint: at most
one row per key. -/
theorem upsert_last_write_wins (db : DB) (user_id gid : String) (now : Time) (inc : Bool)
    (e1 e2 : GEvent) (s1 t1 s2 t2 : Time)
    (h1 : upsertableWith gid s1 t1 e1) (h2 : upsertableWith gid s2 t2 e2)
    (hkey : (db.calendar_events.filter (eventKeyB user_id gid)).length ≤ 1) :
    (∃ res db2 rid,
      CalendarSyncService.store_events db user_id [e1, e2] inc now true =
        Except.ok (res, db2) ∧
      db2.calendar_events.filter (eventKeyB user_id gid) =
        [upsertRow user_id gid e2 s2 t2 now rid]) ∧
    (∀ res1 db1,
      CalendarSyncService.store_events db user_id [e1] inc now true = Except.ok (res1, db1) →
      ∃ res2 db2,
        CalendarSyncService.store_events db1 user_id [e1] inc now true = Except.ok (res2, db2) ∧
        db2.calendar_events = db1.calendar_events ∧
        db2.next_event_id = db1.next_event_id) := by
  obtain ⟨rid1, hfilt1⟩ := store_one_event_upsert user_id gid inc now db
    { events_added := 0, events_updated := 0, events_deleted := 0, is_full_sync := !inc }
    e1 s1 t1 h1 hkey
  constructor
  · obtain ⟨rid2, hfilt2⟩ := store_one_event_upsert user_id gid inc now
      (CalendarSyncService.store_one_event user_id inc now
        (db, { events_added := 0, events_updated := 0, events_deleted := 0,
               is_full_sync := !inc }) e1).1
      (CalendarSyncService.store_one_event user_id inc now
        (db, { events_added := 0, events_updated := 0, events_deleted := 0,
               is_full_sync := !inc }) e1).2
      e2 s2 t2 h2 (by rw [hfilt1]; simp)
    exact ⟨_, _, rid2, rfl, hfilt2⟩
  · intro res1 db1 hrun1
    have hval : CalendarSyncService.store_events db user_id [e1] inc now true =
        Except.ok ((CalendarSyncService.store_one_event user_id inc now
          (db, { events_added := 0, events_updated := 0, events_deleted := 0,
                 is_full_sync := !inc }) e1).2,
          (CalendarSyncService.store_one_event user_id inc now
            (db, { events_added := 0, events_updated := 0, events_deleted := 0,
                   is_full_sync := !inc }) e1).1) := rfl
    rw [hval] at hrun1
    simp only [Except.ok.injEq, Prod.mk.injEq] at hrun1
    have hdb1 : db1 = (CalendarSyncService.store_one_event user_id inc now
        (db, { events_added := 0, events_updated := 0, events_deleted := 0,
               is_full_sync := !inc }) e1).1 := hrun1.2.symm
    have hrow1 : db1.calendar_events.filter (eventKeyB user_id gid) =
        [upsertRow user_id gid e1 s1 t1 now rid1] := by
      rw [hdb1]
      exact hfilt1
    obtain ⟨hEls, hNid⟩ := store_one_event_upsert_idempotent user_id gid inc now db1
      { events_added := 0, events_updated := 0, events_deleted := 0, is_full_sync := !inc }
      e1 s1 t1 rid1 h1 hrow1
    exact ⟨_, _, rfl, hEls, hNid⟩

/-- A fetched provider event evt-1 with a first title. -/
def gev1 : GEvent :=
  { id := some "evt-1", status := none, summary := some "first title", description := none,
    location := none, attendees := none, etag := none,
    start_dateTime := some (some 100), end_dateTime := some (some 200) }

/-- The same provider event with a differing second title. -/
def gev2 : GEvent := { gev1 with summary := some "second title" }

/-- Witness for C8: storing [gev1, gev2] into an empty table leaves one
row with gev2's values, and re-storing gev1 is idempotent. -/
theorem upsert_last_write_wins_witness :
    (∃ res db2 rid,
      CalendarSyncService.store_events dbEmpty "u" [gev1, gev2] false 999 true =
        Except.ok (res, db2) ∧
      db2.calendar_events.filter (eventKeyB "u" "evt-1") =
        [upsertRow "u" "evt-1" gev2 100 200 999 rid]) ∧
    (∀ res1 db1,
      CalendarSyncService.store_events dbEmpty "u" [gev1] false 999 true =
        Except.ok (res1, db1) →
      ∃ res2 db2,
        CalendarSyncService.store_events db1 "u" [gev1] false 999 true =
          Except.ok (res2, db2) ∧
        db2.calendar_events = db1.calendar_events ∧
        db2.next_event_id = db1.next_event_id) :=
  upsert_last_write_wins dbEmpty "u" "evt-1" 999 false gev1 gev2 100 200 100 200
    ⟨rfl, rfl, rfl, rfl⟩ ⟨rfl, rfl, rfl, rfl⟩ (by decide)
